import Mathlib

/-!
Verification of the OrgaKnow attrition-risk pipeline (`New_App.py`, `rbac.py`).

Numeric quantities that the Python code holds as floats are modelled as exact
rationals (`ℚ`); `round(x, n)` is modelled by round-half-to-even at `n` decimal
digits, matching the Python rounding mode on exact values.
-/

namespace OrgaKnow

/-- The weight configuration: a mapping from the five fixed factor keys
`js, wl, ms, cg, stress` to rational weights (a Python dict in the source). -/
structure Weights where
  js : ℚ
  wl : ℚ
  ms : ℚ
  cg : ℚ
  stress : ℚ
deriving DecidableEq

/-- Round-half-to-even to the nearest integer, the rounding mode of
the Python built-in `round`. -/
def rndHalfEven (q : ℚ) : ℤ :=
  let f := ⌊q⌋
  if q - f < 1/2 then f
  else if 1/2 < q - f then f + 1
  else if 2 ∣ f then f else f + 1

/-- Model of the Python `round(q, n)`: round-half-to-even at `n` decimal digits. -/
def pyRound (q : ℚ) (n : ℕ) : ℚ :=
  (rndHalfEven (q * 10 ^ n) : ℚ) / 10 ^ n

/-- Model of `load_risk_weights` with no persisted `risk_config.json`: the fixed
defaults `js=0.25, wl=0.20, ms=0.20, cg=0.15, stress=0.30`. -/
def load_risk_weights : Weights :=
  { js := 1/4, wl := 1/5, ms := 1/5, cg := 3/20, stress := 3/10 }

/-- Model of `sum(weights.values())` in `calculate_attrition_risk`. -/
def totalWeight (w : Weights) : ℚ :=
  w.js + w.wl + w.ms + w.cg + w.stress

/-- The divisor actually used after the guard
`if total_weight == 0: total_weight = 1`. -/
def effTotal (w : Weights) : ℚ :=
  if totalWeight w = 0 then 1 else totalWeight w

/-- Model of `calculate_attrition_risk(js, wl, ms, cg, stress, weights)`:
normalized weighted score of the five survey inputs, scaled to a
percentage by `(raw_score / 6) * 100`, capped at 100 and rounded to two
decimal places. -/
def calculate_attrition_risk (js wl ms cg stress : ℚ) (w : Weights) : ℚ :=
  let t := effTotal w
  let raw_score :=
    (6 - js) * (w.js / t) +
    (6 - wl) * (w.wl / t) +
    (6 - ms) * (w.ms / t) +
    (6 - cg) * (w.cg / t) +
    stress * (w.stress / t)
  pyRound (min (raw_score / 6 * 100) 100) 2

/-- Model of `risk_band(score)`: High at `score >= 70`, Medium at `score >= 40`,
Low below. -/
def risk_band (score : ℚ) : String :=
  if 70 ≤ score then "High"
  else if 40 ≤ score then "Medium"
  else "Low"

/-- The all-zero weight configuration. -/
def zeroWeights : Weights :=
  { js := 0, wl := 0, ms := 0, cg := 0, stress := 0 }

/-- An employee record as persisted in `employees.csv`. -/
structure Employee where
  employeeID : String
  name : String
  department : String
  role : String
  tenure : String
  js : ℚ
  wl : ℚ
  ms : ℚ
  cg : ℚ
  stress : ℚ
  attritionRisk : ℚ
  riskBand : String
deriving DecidableEq

/-- The risk score the stored survey answers receive under a
given weight configuration. -/
def scoreOf (e : Employee) (w : Weights) : ℚ :=
  calculate_attrition_risk e.js e.wl e.ms e.cg e.stress w

/-- The CHRO-visible application state touched by the risk-tuning sidebar:
the persisted employee table, the persisted weight configuration, and the
optional `st.session_state.preview_df` simulation buffer (kept as the
per-employee `(PreviewRisk, PreviewBand)` columns). -/
structure AppState where
  employees : List Employee
  config : Weights
  preview : Option (List (ℚ × String))
deriving DecidableEq

/-- The error reported by `st.error` when `Save & Apply` is clicked with no
`preview_df` in the session. -/
inductive SaveError where
  | preconditionNotMet
deriving DecidableEq

/-- The `Preview Impact` button handler: computes `PreviewRisk` and
`PreviewBand` for every employee under the candidate weights and stores
them in the session preview buffer, mutating nothing else. -/
def previewStep (s : AppState) (w : Weights) : AppState :=
  { s with preview := some (s.employees.map fun e => (scoreOf e w, risk_band (scoreOf e w))) }

/-- Overwriting `AttritionRisk`/`RiskBand` columns with the preview columns,
positionally (`employee_df_full["AttritionRisk"] = preview_df["PreviewRisk"]`). -/
def applyPreview (es : List Employee) (pv : List (ℚ × String)) : List Employee :=
  List.zipWith (fun e p => { e with attritionRisk := p.1, riskBand := p.2 }) es pv

/-- The `Save & Apply Model` button handler: errors (and changes nothing)
when no preview exists; otherwise persists the candidate weights and
overwrites the risk columns of every employee with the preview columns. -/
def saveStep (s : AppState) (w : Weights) : Option SaveError × AppState :=
  match s.preview with
  | none => (some SaveError.preconditionNotMet, s)
  | some pv =>
      (none,
       { employees := applyPreview s.employees pv, config := w, preview := some pv })

/-- Model of `filter_employee_data(df, role, department)` from `rbac.py`: `None` and
empty tables pass through; CHRO/Admin see everything; HRBP/Manager are
scoped to their department unless it is the sentinel `All`; any other role
falls through to the unrestricted default. -/
def filter_employee_data (df : Option (List Employee)) (role department : String) :
    Option (List Employee) :=
  match df with
  | none => none
  | some rows =>
      if rows.isEmpty then some rows
      else if role = "CHRO" ∨ role = "Admin" then some rows
      else if role = "HRBP" ∨ role = "Manager" then
        if department = "All" then some rows
        else some (rows.filter fun e => e.department = department)
      else some rows

/-- A row of the exit-learning view (`exit_merged`): an exit record
left-joined with its action record and employee record, keeping the fields
the recommendation engine reads. -/
structure ExitRow where
  role : String
  department : String
  primaryExitReason : String
  actionTaken : String
  selectedAction : String
deriving DecidableEq

/-- The fixed 8-action catalog (`available_actions` in tab 3). -/
def catalogActions : List String :=
  ["Career Path Discussion", "Compensation Review", "Manager Coaching / 1:1",
   "Internal Role Movement", "Workload Rebalancing", "Training / Upskilling",
   "Engagement Survey Follow-up", "No Action – Monitor"]

/-- Insert into a list sorted by strictly descending key, keeping the new
element after existing elements of equal key. -/
def insertByDesc (key : String → ℕ) (a : String) : List String → List String
  | [] => [a]
  | b :: t => if key b < key a then a :: b :: t else b :: insertByDesc key a t

/-- Sort by descending key (`sort_values(..., ascending=False)`; the
tie order of the source is backend-dependent, so a fixed deterministic
tie-break is used here — the claims below do not depend on it). -/
def sortByDesc (key : String → ℕ) : List String → List String
  | [] => []
  | a :: t => insertByDesc key a (sortByDesc key t)

/-- Model of `FailureCount`: exits with reason `r` where action `a` had been taken
(`action_learning_summary`). -/
def failureCount (rows : List ExitRow) (r a : String) : ℕ :=
  (rows.filter fun x =>
    x.actionTaken = "Yes" ∧ x.primaryExitReason = r ∧ x.selectedAction = a).length

/-- The distinct actions that were taken yet followed by an exit with
reason `r` (the group keys feeding `failed_action_map` for `r`). -/
def failedCandidates (rows : List ExitRow) (r : String) : List String :=
  ((rows.filter fun x => x.actionTaken = "Yes" ∧ x.primaryExitReason = r).map
    fun x => x.selectedAction).dedup

/-- Model of `failed_action_map[r]`: the top-2 most frequent failed actions for
reason `r` (`sort_values(ascending=False).groupby(...).head(2)`);
a reason absent from the map yields `[]`. -/
def failedActions (rows : List ExitRow) (r : String) : List String :=
  (sortByDesc (failureCount rows r) (failedCandidates rows r)).take 2

/-- Model of `value_counts().idxmax()`: the most frequent entry of a list, `none`
when it is empty. -/
def mostFrequent (l : List String) : Option String :=
  (sortByDesc (fun a => l.count a) l.dedup).head?

/-- Model of `likely_exit_reason`: the most frequent `PrimaryExitReason` among
exit-learning rows matching the role and department of the employee. -/
def likelyExitReason (rows : List ExitRow) (role dept : String) : Option String :=
  mostFrequent
    ((rows.filter fun x => x.role = role ∧ x.department = dept).map
      fun x => x.primaryExitReason)

/-- The action list offered in tab 3: the catalog, minus the historically
failed actions of the likely exit reason when that reason is truthy and
present in the failed-action map. -/
def availableActions (rows : List ExitRow) (role dept : String) : List String :=
  match likelyExitReason rows role dept with
  | none => catalogActions
  | some r =>
      if r ≠ "" ∧ failedActions rows r ≠ [] then
        catalogActions.filter fun a => a ∉ failedActions rows r
      else catalogActions

/-- A raw uploaded exit row after the column-mapping step (the five
required fields, already renamed to the system names). -/
structure RawExitRow where
  employeeID : String
  exitDate : String
  exitType : String
  primaryExitReason : String
  actionTaken : String
deriving DecidableEq

/-- A persisted exit-intelligence record (`exit_intelligence.csv`). -/
structure ExitRecord where
  employeeID : String
  exitDate : String
  exitType : String
  primaryExitReason : String
  actionTaken : String
  secondaryExitReason : String
  actionHelped : String
  hrComment : String
deriving DecidableEq

/-- Standardization of an uploaded row: mapped fields are carried over
verbatim and the three unmapped fields get fixed fill-in values. -/
def standardize (r : RawExitRow) : ExitRecord :=
  { employeeID := r.employeeID, exitDate := r.exitDate, exitType := r.exitType,
    primaryExitReason := r.primaryExitReason, actionTaken := r.actionTaken,
    secondaryExitReason := "None", actionHelped := "Not Applicable",
    hrComment := "Bulk Uploaded" }

/-- The `Import & Standardize Data` handler: standardize the uploaded rows,
drop (and count) those whose `EmployeeID` is not among the employee
IDs of the master table (compared as strings), and append the remainder
to the exit table. -/
def importExitData (validIds : List String) (exitTable : List ExitRecord)
    (rows : List RawExitRow) : List ExitRecord × ℕ :=
  let std := rows.map standardize
  let invalid := std.filter fun x => x.employeeID ∉ validIds
  let keep := std.filter fun x => x.employeeID ∈ validIds
  (exitTable ++ keep, invalid.length)

/-- The error reported when manual entry hits an existing `EmployeeID`. -/
inductive EntryError where
  | duplicateKey
deriving DecidableEq

/-- The `Save & Predict Risk` handler: score the entered survey answers,
reject the insert when the `EmployeeID` already occurs in the stored table
(leaving it unchanged), and otherwise append the scored record. -/
def manualEntry (table : List Employee) (empId nm dp rl tn : String)
    (js wl ms cg stress : ℚ) (w : Weights) : Option EntryError × List Employee :=
  let risk := calculate_attrition_risk js wl ms cg stress w
  let row : Employee :=
    { employeeID := empId, name := nm, department := dp, role := rl, tenure := tn,
      js := js, wl := wl, ms := ms, cg := cg, stress := stress,
      attritionRisk := risk, riskBand := risk_band risk }
  if empId ∈ table.map (fun e => e.employeeID) then (some EntryError.duplicateKey, table)
  else (none, table ++ [row])

/-- An action record as persisted in `attrition_actions.csv`. -/
structure ActionRecord where
  employeeID : String
  employeeName : String
  department : String
  manager : String
  riskScore : ℚ
  riskBand : String
  selectedAction : String
  actionStatus : String
  managerComment : String
  outcomeStatus : String
  outcomeDate : String
deriving DecidableEq

/-- Count `stayed`: action records whose `OutcomeStatus` is `Stayed`. -/
def countStayed (acts : List ActionRecord) : ℕ :=
  (acts.filter fun a => a.outcomeStatus = "Stayed").length

/-- Count `left`: action records whose `OutcomeStatus` is `Left`. -/
def countLeft (acts : List ActionRecord) : ℕ :=
  (acts.filter fun a => a.outcomeStatus = "Left").length

/-- Model of `retention_rate`: `round(stayed / (stayed + left) * 100, 1)` when
`stayed + left > 0`, else 0 (tab 6 of `New_App.py`). -/
def retention_rate (acts : List ActionRecord) : ℚ :=
  if 0 < countStayed acts + countLeft acts then
    pyRound ((countStayed acts : ℚ) / ((countStayed acts : ℚ) + (countLeft acts : ℚ)) * 100) 1
  else 0

/-- Scaling every weight by the same factor `c`. -/
def smulWeights (c : ℚ) (w : Weights) : Weights :=
  { js := c * w.js, wl := c * w.wl, ms := c * w.ms, cg := c * w.cg,
    stress := c * w.stress }

/-- A sample employee record used to instantiate universally quantified
claims at a concrete input. -/
def sampleEmp : Employee :=
  { employeeID := "E100", name := "Asha", department := "Sales", role := "Manager",
    tenure := "3", js := 2, wl := 3, ms := 2, cg := 1, stress := 4,
    attritionRisk := 50, riskBand := "Medium" }

/-- A concrete one-employee application state with no active preview. -/
def sampleState : AppState :=
  { employees := [sampleEmp], config := load_risk_weights, preview := none }

/-! ### Helper lemmas -/

/-- Applying a preview that was computed from the same employee list
rewrites each record by its own preview pair. -/
lemma applyPreview_map (es : List Employee) (f : Employee → ℚ × String) :
    applyPreview es (es.map f) =
      es.map fun e => { e with attritionRisk := (f e).1, riskBand := (f e).2 } := by
  induction es with
  | nil => rfl
  | cons a t ih => simpa [applyPreview] using ih

/-- Standardizing commutes with filtering on membership of the
`EmployeeID` in the valid-ID set. -/
lemma standardize_filter_mem (validIds : List String) (rows : List RawExitRow) :
    (rows.map standardize).filter (fun x => x.employeeID ∈ validIds) =
      (rows.filter fun r => r.employeeID ∈ validIds).map standardize := by
  induction rows with
  | nil => rfl
  | cons a t ih =>
      by_cases h : a.employeeID ∈ validIds <;>
        simp [standardize, List.filter_cons, h, ih]

/-- Standardizing preserves the number of rows whose `EmployeeID` is
outside the valid-ID set. -/
lemma standardize_filter_not_mem (validIds : List String) (rows : List RawExitRow) :
    (rows.map standardize).filter (fun x => x.employeeID ∉ validIds) =
      (rows.filter fun r => r.employeeID ∉ validIds).map standardize := by
  induction rows with
  | nil => rfl
  | cons a t ih =>
      by_cases h : a.employeeID ∈ validIds <;>
        simpa [standardize, List.filter_cons, h] using ih

/-- Evaluation of the best-case extreme under default weights. -/
lemma calc_default_best :
    calculate_attrition_risk 5 5 5 5 1 load_risk_weights = 1667/100 := by
  norm_num [calculate_attrition_risk, load_risk_weights, effTotal, totalWeight, pyRound,
    rndHalfEven, min_def]

/-- Evaluation of the worst-case extreme under default weights. -/
lemma calc_default_worst :
    calculate_attrition_risk 1 1 1 1 5 load_risk_weights = 8333/100 := by
  norm_num [calculate_attrition_risk, load_risk_weights, effTotal, totalWeight, pyRound,
    rndHalfEven, min_def]

/-- Lemma: `calculate_attrition_risk` is invariant under scaling all five weights
by a positive factor: normalization divides the factor back out, and a
zero weight sum forces every (non-negative) weight to zero, where scaling
is the identity. -/
lemma calc_scale_inv (w : Weights) (c : ℚ) (hc : 0 < c)
    (h1 : 0 ≤ w.js) (h2 : 0 ≤ w.wl) (h3 : 0 ≤ w.ms) (h4 : 0 ≤ w.cg)
    (h5 : 0 ≤ w.stress) (js wl ms cg stress : ℚ) :
    calculate_attrition_risk js wl ms cg stress (smulWeights c w) =
      calculate_attrition_risk js wl ms cg stress w := by
  have hc0 : c ≠ 0 := ne_of_gt hc
  by_cases h0 : totalWeight w = 0
  · have hsum : w.js + w.wl + w.ms + w.cg + w.stress = 0 := h0
    have e1 : w.js = 0 := by linarith
    have e2 : w.wl = 0 := by linarith
    have e3 : w.ms = 0 := by linarith
    have e4 : w.cg = 0 := by linarith
    have e5 : w.stress = 0 := by linarith
    simp [calculate_attrition_risk, smulWeights, effTotal, totalWeight, e1, e2, e3, e4, e5]
  · have ht : totalWeight (smulWeights c w) = c * totalWeight w := by
      simp only [totalWeight, smulWeights]
      ring
    have hne : c * totalWeight w ≠ 0 := mul_ne_zero hc0 h0
    have et1 : effTotal (smulWeights c w) = c * totalWeight w := by
      rw [effTotal, ht, if_neg hne]
    have et2 : effTotal w = totalWeight w := by
      rw [effTotal, if_neg h0]
    have hdiv : ∀ a : ℚ, c * a / (c * totalWeight w) = a / totalWeight w :=
      fun a => mul_div_mul_left a (totalWeight w) hc0
    unfold calculate_attrition_risk
    rw [et1, et2]
    simp only [smulWeights]
    rw [hdiv, hdiv, hdiv, hdiv, hdiv]

/-- A fully populated action record with the given outcome status. -/
def mkOutcome (s : String) : ActionRecord :=
  { employeeID := "E100", employeeName := "Asha", department := "Sales",
    manager := "Manager_A", riskScore := 50, riskBand := "Medium",
    selectedAction := "Career Path Discussion", actionStatus := "Completed",
    managerComment := "", outcomeStatus := s, outcomeDate := "" }

/-- Action table with 3 Stayed, 2 Left, 5 Pending outcomes. -/
def c7Sample : List ActionRecord :=
  [mkOutcome "Stayed", mkOutcome "Stayed", mkOutcome "Stayed",
   mkOutcome "Left", mkOutcome "Left",
   mkOutcome "Pending", mkOutcome "Pending", mkOutcome "Pending",
   mkOutcome "Pending", mkOutcome "Pending"]

/-- Action table whose outcomes are all Pending. -/
def c7AllPending : List ActionRecord :=
  List.replicate 5 (mkOutcome "Pending")

/-! ### Claims -/

/-- Claim C1 (counterexample): under the default weights, the extreme survey
quintuple `(5,5,5,5,1)` does NOT score 0.00 and `(1,1,1,1,5)` does NOT
score 100.00: the normalized raw score ranges over `[1, 5]` while the
formula divides by 6 before scaling to a percentage. -/
theorem c1_default_extremes_not_0_100 :
    ¬ (calculate_attrition_risk 5 5 5 5 1 load_risk_weights = 0 ∧
       calculate_attrition_risk 1 1 1 1 5 load_risk_weights = 100) := by
  intro h
  rw [calc_default_best] at h
  exact absurd h.1 (by norm_num)

/-- Claim C1 (amended): under the default weight configuration (js=0.25,
wl=0.20, ms=0.20, cg=0.15, stress=0.30), `calculate_attrition_risk` applied
to `(5,5,5,5,1)` returns 16.67, and applied to `(1,1,1,1,5)` returns
83.33. -/
theorem c1_default_extremes :
    calculate_attrition_risk 5 5 5 5 1 load_risk_weights = 1667/100 ∧
    calculate_attrition_risk 1 1 1 1 5 load_risk_weights = 8333/100 :=
  ⟨calc_default_best, calc_default_worst⟩

/-- Claim C9: with all five weights zero, `calculate_attrition_risk` divides by
1 rather than by the zero weight sum (the guard replaces a zero sum by 1),
and returns the well-defined value 0 on every survey quintuple. -/
theorem c9_zero_weights_defined (js wl ms cg stress : ℚ) :
    effTotal zeroWeights = 1 ∧
    calculate_attrition_risk js wl ms cg stress zeroWeights = 0 := by
  constructor
  · norm_num [effTotal, totalWeight, zeroWeights]
  · norm_num [calculate_attrition_risk, effTotal, totalWeight, zeroWeights, pyRound,
      rndHalfEven, min_def]

/-- Claim C2: after a successful Save & Apply for a candidate weight
configuration (a preview with that candidate followed by the save), the
save reports no error, the candidate becomes the persisted configuration,
and every persisted employee record field `AttritionRisk` equals
`calculate_attrition_risk` on its five stored survey scores under the
candidate, with `RiskBand` equal to `risk_band` of that value. -/
theorem c2_save_after_preview (s : AppState) (w : Weights) (err : Option SaveError)
    (s2 : AppState) (h : saveStep (previewStep s w) w = (err, s2)) :
    err = none ∧ s2.config = w ∧
    ∀ e ∈ s2.employees,
      e.attritionRisk = calculate_attrition_risk e.js e.wl e.ms e.cg e.stress w ∧
      e.riskBand = risk_band (calculate_attrition_risk e.js e.wl e.ms e.cg e.stress w) := by
  have hstep :
      saveStep (previewStep s w) w =
        (none,
         { employees :=
            applyPreview s.employees
              (s.employees.map fun e => (scoreOf e w, risk_band (scoreOf e w))),
           config := w,
           preview := some (s.employees.map fun e => (scoreOf e w, risk_band (scoreOf e w))) }) := by
    rfl
  rw [hstep] at h
  obtain ⟨herr, hs2⟩ := Prod.mk.injEq .. ▸ h
  refine ⟨herr.symm, by rw [← hs2], ?_⟩
  intro e he
  rw [← hs2] at he
  simp only [applyPreview_map, List.mem_map] at he
  obtain ⟨e0, _, rfl⟩ := he
  exact ⟨rfl, rfl⟩

/-- Claim C2 witness: the round-trip property instantiated on a concrete
one-employee state and the default weight configuration. -/
theorem c2_save_after_preview_witness :
    (saveStep (previewStep sampleState load_risk_weights) load_risk_weights).1 = none ∧
    (saveStep (previewStep sampleState load_risk_weights) load_risk_weights).2.config =
      load_risk_weights ∧
    ∀ e ∈ (saveStep (previewStep sampleState load_risk_weights) load_risk_weights).2.employees,
      e.attritionRisk = calculate_attrition_risk e.js e.wl e.ms e.cg e.stress load_risk_weights ∧
      e.riskBand =
        risk_band (calculate_attrition_risk e.js e.wl e.ms e.cg e.stress load_risk_weights) :=
  c2_save_after_preview sampleState load_risk_weights _ _ rfl

/-- Claim C3: clicking Save & Apply with no preview buffer in the session
fails with the precondition error, and the state — persisted weight
configuration and employee table alike — is returned unchanged. -/
theorem c3_save_without_preview (s : AppState) (w : Weights) (h : s.preview = none) :
    saveStep s w = (some SaveError.preconditionNotMet, s) := by
  simp [saveStep, h]

/-- Claim C3 witness: the failing save on a concrete previewless state. -/
theorem c3_save_without_preview_witness :
    saveStep sampleState load_risk_weights =
      (some SaveError.preconditionNotMet, sampleState) :=
  c3_save_without_preview sampleState load_risk_weights rfl

/-- Claim C10: `filter_employee_data` returns a non-empty table unfiltered for
any role outside CHRO/Admin/HRBP/Manager, and returns `None` and the empty
table unchanged for every role. -/
theorem c10_unrecognized_role_full_view (role department : String) (rows : List Employee) :
    (rows ≠ [] → role ∉ (["CHRO", "Admin", "HRBP", "Manager"] : List String) →
      filter_employee_data (some rows) role department = some rows) ∧
    filter_employee_data none role department = none ∧
    filter_employee_data (some []) role department = some [] := by
  refine ⟨fun hne hrole => ?_, rfl, by simp [filter_employee_data]⟩
  simp only [List.mem_cons, List.not_mem_nil, or_false, not_or] at hrole
  obtain ⟨h1, h2, h3, h4⟩ := hrole
  simp [filter_employee_data, hne, h1, h2, h3, h4]

/-- Claim C10 witness: an unrecognized role string sees the full table, and
`None`/empty inputs pass through. -/
theorem c10_unrecognized_role_full_view_witness :
    filter_employee_data (some [sampleEmp]) "Contractor" "Sales" = some [sampleEmp] ∧
    filter_employee_data none "Contractor" "Sales" = none ∧
    filter_employee_data (some []) "Contractor" "Sales" = some [] := by
  have h := c10_unrecognized_role_full_view "Contractor" "Sales" [sampleEmp]
  exact ⟨h.1 (List.cons_ne_nil _ _) (by decide), h.2.1, h.2.2⟩

/-- Exit-learning rows backing the C4 witness: three Sales-manager exits
for reason Compensation, with Compensation Review failing twice and Career
Path Discussion once. -/
def c4Rows : List ExitRow :=
  [{ role := "Manager", department := "Sales", primaryExitReason := "Compensation",
     actionTaken := "Yes", selectedAction := "Compensation Review" },
   { role := "Manager", department := "Sales", primaryExitReason := "Compensation",
     actionTaken := "Yes", selectedAction := "Compensation Review" },
   { role := "Manager", department := "Sales", primaryExitReason := "Compensation",
     actionTaken := "Yes", selectedAction := "Career Path Discussion" }]

/-- Claim C4: whenever the likely exit reason is defined (and truthy) and has
an entry in the failed-action map, the offered action list is exactly the
fixed 8-action catalog with its at-most-2 failed actions removed,
and is a sublist of the catalog (relative order preserved). -/
theorem c4_recommendation_filtering (rows : List ExitRow) (role dept r : String)
    (h1 : likelyExitReason rows role dept = some r) (h2 : r ≠ "")
    (h3 : failedActions rows r ≠ []) :
    availableActions rows role dept =
      catalogActions.filter (fun a => a ∉ failedActions rows r) ∧
    (failedActions rows r).length ≤ 2 ∧
    (availableActions rows role dept).Sublist catalogActions := by
  have hmain : availableActions rows role dept =
      catalogActions.filter (fun a => a ∉ failedActions rows r) := by
    simp [availableActions, h1, h2, h3]
  refine ⟨hmain, ?_, ?_⟩
  · rw [failedActions]
    exact List.length_take_le 2 _
  · rw [hmain]
    exact List.filter_sublist _

/-- Claim C4 witness: the Compensation example — both historically failed
actions are removed and the remaining six keep catalog order. -/
theorem c4_recommendation_filtering_witness :
    availableActions c4Rows "Manager" "Sales" =
      catalogActions.filter (fun a => a ∉ failedActions c4Rows "Compensation") ∧
    (failedActions c4Rows "Compensation").length ≤ 2 ∧
    (availableActions c4Rows "Manager" "Sales").Sublist catalogActions :=
  c4_recommendation_filtering c4Rows "Manager" "Sales" "Compensation"
    (by decide) (by decide) (by decide)

/-- Claim C5: bulk exit import appends exactly the standardized rows whose
`EmployeeID` occurs among the employee-table IDs, reports the number of
dropped rows (those with absent IDs), and standardization carries every
mapped field value over unchanged. -/
theorem c5_exit_import_filtering (validIds : List String) (exitTable : List ExitRecord)
    (rows : List RawExitRow) :
    (importExitData validIds exitTable rows).1 =
      exitTable ++ (rows.filter fun r => r.employeeID ∈ validIds).map standardize ∧
    (importExitData validIds exitTable rows).2 =
      (rows.filter fun r => r.employeeID ∉ validIds).length ∧
    ∀ r : RawExitRow,
      (standardize r).employeeID = r.employeeID ∧
      (standardize r).exitDate = r.exitDate ∧
      (standardize r).exitType = r.exitType ∧
      (standardize r).primaryExitReason = r.primaryExitReason ∧
      (standardize r).actionTaken = r.actionTaken := by
  refine ⟨?_, ?_, fun r => ⟨rfl, rfl, rfl, rfl, rfl⟩⟩
  · show exitTable ++ (rows.map standardize).filter (fun x => x.employeeID ∈ validIds) =
      exitTable ++ (rows.filter fun r => r.employeeID ∈ validIds).map standardize
    rw [standardize_filter_mem]
  · show ((rows.map standardize).filter (fun x => x.employeeID ∉ validIds)).length =
      (rows.filter fun r => r.employeeID ∉ validIds).length
    rw [standardize_filter_not_mem, List.length_map]

/-- Claim C6: manual entry of an `EmployeeID` already present in the stored
employee table fails with the duplicate-key error and returns the stored
table unchanged. -/
theorem c6_duplicate_entry_rejected (table : List Employee)
    (empId nm dp rl tn : String) (js wl ms cg stress : ℚ) (w : Weights)
    (h : empId ∈ table.map fun e => e.employeeID) :
    manualEntry table empId nm dp rl tn js wl ms cg stress w =
      (some EntryError.duplicateKey, table) := by
  simp [manualEntry, h]

/-- Claim C6 witness: inserting the ID of the sample employee again is rejected
and leaves the one-record table as it was. -/
theorem c6_duplicate_entry_rejected_witness :
    manualEntry [sampleEmp] "E100" "Ben" "IT" "Staff" "1" 3 3 3 3 3 load_risk_weights =
      (some EntryError.duplicateKey, [sampleEmp]) :=
  c6_duplicate_entry_rejected [sampleEmp] "E100" "Ben" "IT" "Staff" "1" 3 3 3 3 3
    load_risk_weights (by simp [sampleEmp])

/-- Claim C7: `retention_rate` equals `stayed / (stayed + left) * 100` rounded
to one decimal place whenever `stayed + left > 0` and 0 otherwise; Pending
records change neither count; 3 Stayed / 2 Left / 5 Pending yields 60.0
and an all-Pending table yields 0. -/
theorem c7_retention_rate :
    (∀ acts : List ActionRecord,
      (0 < countStayed acts + countLeft acts →
        retention_rate acts =
          pyRound ((countStayed acts : ℚ) /
            ((countStayed acts : ℚ) + (countLeft acts : ℚ)) * 100) 1) ∧
      (countStayed acts + countLeft acts = 0 → retention_rate acts = 0) ∧
      ∀ p : ActionRecord, p.outcomeStatus = "Pending" →
        countStayed (p :: acts) = countStayed acts ∧
        countLeft (p :: acts) = countLeft acts) ∧
    retention_rate c7Sample = 60 ∧
    retention_rate c7AllPending = 0 := by
  refine ⟨fun acts => ⟨fun h => by simp [retention_rate, h], fun h => by
    simp [retention_rate, h], fun p hp => ?_⟩, ?_, ?_⟩
  · constructor <;> simp [countStayed, countLeft, List.filter_cons, hp]
  · have hs : countStayed c7Sample = 3 := by decide
    have hl : countLeft c7Sample = 2 := by decide
    norm_num [retention_rate, hs, hl, pyRound, rndHalfEven]
  · have hs : countStayed c7AllPending = 0 := by decide
    have hl : countLeft c7AllPending = 0 := by decide
    norm_num [retention_rate, hs, hl]

/-- Claim C7 witness: the rounded-quotient clause instantiated on the
3 Stayed / 2 Left / 5 Pending table, whose tracked count is positive. -/
theorem c7_retention_rate_witness :
    retention_rate c7Sample =
      pyRound ((countStayed c7Sample : ℚ) /
        ((countStayed c7Sample : ℚ) + (countLeft c7Sample : ℚ)) * 100) 1 :=
  (c7_retention_rate.1 c7Sample).1 (by decide)

/-- Claim C8: `calculate_attrition_risk` is invariant under uniform positive
scaling of a non-negative weight configuration; in particular the uniform
weights `1,1,1,1,1` and `0.2,0.2,0.2,0.2,0.2` score identically. -/
theorem c8_scale_invariance (w : Weights) (c : ℚ) (hc : 0 < c)
    (h1 : 0 ≤ w.js) (h2 : 0 ≤ w.wl) (h3 : 0 ≤ w.ms) (h4 : 0 ≤ w.cg)
    (h5 : 0 ≤ w.stress) (js wl ms cg stress : ℚ) :
    calculate_attrition_risk js wl ms cg stress (smulWeights c w) =
      calculate_attrition_risk js wl ms cg stress w ∧
    calculate_attrition_risk js wl ms cg stress
        { js := 1, wl := 1, ms := 1, cg := 1, stress := 1 } =
      calculate_attrition_risk js wl ms cg stress
        { js := 1/5, wl := 1/5, ms := 1/5, cg := 1/5, stress := 1/5 } := by
  refine ⟨calc_scale_inv w c hc h1 h2 h3 h4 h5 js wl ms cg stress, ?_⟩
  have h := calc_scale_inv { js := 1/5, wl := 1/5, ms := 1/5, cg := 1/5, stress := 1/5 } 5
    (by norm_num) (by norm_num) (by norm_num) (by norm_num) (by norm_num) (by norm_num)
    js wl ms cg stress
  have hw : smulWeights 5 { js := 1/5, wl := 1/5, ms := 1/5, cg := 1/5, stress := 1/5 } =
      ({ js := 1, wl := 1, ms := 1, cg := 1, stress := 1 } : Weights) := by
    norm_num [smulWeights]
  rw [hw] at h
  exact h

/-- Claim C8 witness: scale invariance at the default weights scaled by 2,
on the concrete survey quintuple `(4,3,2,5,1)`. -/
theorem c8_scale_invariance_witness :
    calculate_attrition_risk 4 3 2 5 1 (smulWeights 2 load_risk_weights) =
      calculate_attrition_risk 4 3 2 5 1 load_risk_weights ∧
    calculate_attrition_risk 4 3 2 5 1
        { js := 1, wl := 1, ms := 1, cg := 1, stress := 1 } =
      calculate_attrition_risk 4 3 2 5 1
        { js := 1/5, wl := 1/5, ms := 1/5, cg := 1/5, stress := 1/5 } :=
  c8_scale_invariance load_risk_weights 2 (by norm_num) (by norm_num [load_risk_weights])
    (by norm_num [load_risk_weights]) (by norm_num [load_risk_weights])
    (by norm_num [load_risk_weights]) (by norm_num [load_risk_weights]) 4 3 2 5 1

end OrgaKnow
